import Mathlib

/-!
Shallow embedding of `task_sdk/src/airflow/sdk/log.py` (structured-logging
configuration for the Airflow task SDK), together with proofs about the
properties its specification states.

Modelling conventions:
* A structlog `EventDict` is an ordered association list from field names to
  values.  Python `dict` assignment to an existing key keeps its position;
  assigning a fresh key appends it at the end; `del` removes the entry.
* Exception values (`exc_info` payloads) are modelled by `ExcVal`: either a
  single exception or an exception group carrying its sub-exceptions.
* The module-level condition `hasattr(__builtins__, "BaseExceptionGroup")`
  depends on how the module is loaded: in CPython, `__builtins__` is the
  `builtins` module only in `__main__`; in an imported module it is the plain
  builtins dict, on which `hasattr(-, "BaseExceptionGroup")` is `False` even on
  Python 3.11+.  The flag `builtinsHasBEG` makes that condition a parameter of
  the embedding; the deployed value for this library module (always imported)
  is `false`.
* `functools.cache` is modelled by explicit cache fields in a `Sys` state that
  is threaded through `logging_processors` and `configure_logging`.  Object
  identity of built pipelines is modelled by an allocation counter: every real
  build yields a fresh `pid`, so two pipelines are "the same instance" exactly
  when they carry the same `pid`.
-/

/-- Python `str.lower` on one character, for the ASCII range the level names
use. -/
def pyCharLower (c : Char) : Char :=
  if 65 ≤ c.toNat ∧ c.toNat ≤ 90 then Char.ofNat (c.toNat + 32) else c

/-- Python `str.lower` (modelled character-wise so that proofs can evaluate
it). -/
def pyLower (s : String) : String := ⟨s.data.map pyCharLower⟩

/-- Python `s.startswith(pre)` (modelled on the character list so that proofs
can evaluate it). -/
def pyStartsWith (s pre : String) : Bool := pre.data.isPrefixOf s.data

/-- A formatted traceback frame record, the unit produced by the exception
formatter (`format_exception` returns a list of these per exception). -/
structure FrameRec where
  filename : String
  lineno : Nat
  name : String
deriving DecidableEq, Repr

/-- An exception value: a single exception or an exception group with its
`exceptions` list of sub-exceptions (`BaseExceptionGroup`). -/
inductive ExcVal where
  | single (label : String)
  | group (label : String) (subs : List ExcVal)

/-- Values stored in an `EventDict`: strings, numbers, booleans, a bare
exception object, an `(type, value, traceback)` triple, or a list of formatted
frame records (the shape stored under `"exception"`). -/
inductive Value where
  | str (s : String)
  | num (n : Int)
  | bool (b : Bool)
  | exc (e : ExcVal)
  | excTuple (e : ExcVal)
  | frames (l : List FrameRec)

/-- Python truthiness for the modelled values (used by the walrus test
`if exc_info := event_dict.get("exc_info", None):`). -/
def Value.truthy : Value → Bool
  | Value.bool b => b
  | Value.str s => !(s == "")
  | Value.num n => !(n == 0)
  | Value.frames l => !l.isEmpty
  | Value.exc _ => true
  | Value.excTuple _ => true

/-- An ordered event dictionary, as structlog passes between processors. -/
abbrev EventDict : Type := List (String × Value)

/-- Association-list lookup with decidable key equality (`d.get(k)`). -/
def alistGet {α β : Type} [DecidableEq α] : List (α × β) → α → Option β
  | [], _ => none
  | kv :: rest, k => if kv.1 = k then some kv.2 else alistGet rest k

/-- Python dict assignment `d[k] = v`: update in place when the key exists
(position preserved), otherwise append the new entry at the end. -/
def dictSet (d : EventDict) (k : String) (v : Value) : EventDict :=
  if (alistGet d k).isSome then
    d.map (fun kv => if kv.1 = k then (k, v) else kv)
  else
    d ++ [(k, v)]

/-- Python `del d[k]`. -/
def dictDel (d : EventDict) (k : String) : EventDict :=
  d.filter (fun kv => kv.1 ≠ k)

/-- The redaction condition of `redact_jwt`:
`isinstance(v, str) and v.startswith("eyJ")`. -/
def jwtMatch : Value → Bool
  | Value.str s => pyStartsWith s "eyJ"
  | _ => false

/-- One step of the `redact_jwt` loop body: replace a matching string value by
the literal `"eyJ***"`, leave every other value alone. -/
def redactValue (v : Value) : Value :=
  if jwtMatch v then Value.str "eyJ***" else v

/-- `redact_jwt` (log.py lines 89-93): for each `(k, v)` item of the event
dict, if `v` is a string starting with `"eyJ"`, assign `event_dict[k] =
"eyJ***"`.  Assignment to an existing key keeps its position, so the loop is a
value-wise rewrite of the list. -/
def redact_jwt : EventDict → EventDict
  | [] => []
  | kv :: rest => (kv.1, redactValue kv.2) :: redact_jwt rest

/-- Is this exception value an exception group? -/
def ExcVal.isGroup : ExcVal → Bool
  | ExcVal.group _ _ => true
  | ExcVal.single _ => false

/-- The `exceptions` attribute of an exception group. -/
def ExcVal.subExceptions : ExcVal → List ExcVal
  | ExcVal.group _ subs => subs
  | ExcVal.single _ => []

/-- An exception escaping a processor: the `NameError` raised by referencing
an unbound closure variable. -/
inductive ProcError where
  | nameError (name : String)
deriving DecidableEq, Repr

/-- The name lookup performed by `isinstance(-, BaseExceptionGroup)` inside
`_exception_group_tracebacks`.  The placeholder `class BaseExceptionGroup`
at log.py lines 44-48 is a conditional binding in the enclosing function, so
the inner closure always resolves the name through that closure cell: when
`hasattr(__builtins__, "BaseExceptionGroup")` was true the branch was skipped
and the cell is unbound, so the reference raises
`NameError: cannot access free variable 'BaseExceptionGroup'` (reproduced
under CPython 3.11.6); when it was false the cell holds the placeholder
class, which no value instantiates, so the test is `False` for every
argument. -/
def isinstanceBEG (builtinsHasBEG : Bool) : Except ProcError Bool :=
  if builtinsHasBEG then
    Except.error (ProcError.nameError "BaseExceptionGroup")
  else Except.ok false

/-- `exception_group_tracebacks format_exception` (log.py lines 42-80), as the
processor it returns.  `builtinsHasBEG` is the value of
`hasattr(__builtins__, "BaseExceptionGroup")` at module load (false whenever
the module is imported, where `__builtins__` is the builtins dict).
`currentExc` models `sys.exc_info()` (the in-flight exception, if any) for
the `exc_info is True` case.  Every truthy `exc_info` reaches one of the two
`isinstance(-, BaseExceptionGroup)` references — the third conjunct of the
tuple test when `exc_info` is a 3-tuple, the `elif` otherwise — so the
processor's outcome threads the possible `NameError` from `isinstanceBEG`. -/
def exception_group_tracebacks (builtinsHasBEG : Bool)
    (format_exception : ExcVal → List FrameRec) (currentExc : Option ExcVal)
    (event_dict : EventDict) : Except ProcError EventDict :=
  match alistGet event_dict "exc_info" with
  | none => Except.ok event_dict
  | some v =>
    if !v.truthy then Except.ok event_dict
    else
      -- `if exc_info is True: exc_info = sys.exc_info(); if exc_info[0] is
      -- None: exc_info = None`
      let excInfo : Option Value :=
        match v with
        | Value.bool true =>
          (match currentExc with
           | some e => some (Value.excTuple e)
           | none => none)
        | _ => some v
      -- `if (isinstance(exc_info, tuple) and len(exc_info) == 3 and
      -- isinstance(exc_info[1], BaseExceptionGroup)): group = exc_info[1]`
      -- `elif isinstance(exc_info, BaseExceptionGroup): group = exc_info`
      let groupE : Except ProcError (Option ExcVal) :=
        match excInfo with
        | some (Value.excTuple e) =>
          (match isinstanceBEG builtinsHasBEG with
           | Except.error err => Except.error err
           | Except.ok b => Except.ok (if b && e.isGroup then some e else none))
        | some (Value.exc e) =>
          (match isinstanceBEG builtinsHasBEG with
           | Except.error err => Except.error err
           | Except.ok b => Except.ok (if b && e.isGroup then some e else none))
        | _ =>
          -- not a 3-tuple and not an exception object (e.g. `None` after a
          -- `True` with no in-flight exception): the tuple test
          -- short-circuits and the `elif` still references the name
          (match isinstanceBEG builtinsHasBEG with
           | Except.error err => Except.error err
           | Except.ok _ => Except.ok none)
      match groupE with
      | Except.error err => Except.error err
      | Except.ok none => Except.ok event_dict
      | Except.ok (some g) =>
        -- `del event_dict["exc_info"]`, then `event_dict["exception"] =
        -- list(chain.from_iterable(format_exception(...) for exc in
        -- (*group.exceptions, group)))` — reachable only if the isinstance
        -- test could succeed, which it can under neither condition
        Except.ok (dictSet (dictDel event_dict "exc_info") "exception"
          (Value.frames ((g.subExceptions ++ [g]).flatMap format_exception)))

/-- Tags for the structlog processors assembled by `logging_processors`
(log.py lines 125-222), in the role each object plays in the chain. -/
inductive ProcTag where
  | maybeTimeStamper (fmt : String)
  | mergeContextvars
  | addLogLevel
  | positionalArgumentsFormatter
  | loggerNameProc
  | redactJwtProc
  | stackInfoRenderer
  | excGroupProcessor
  | exceptionRenderer
  | unicodeDecoder
  | jsonRenderer
  | consoleRenderer
deriving DecidableEq, Repr

/-- The processor list built by `logging_processors(enable_pretty_log)`
(log.py lines 125-222): the shared prefix, then either the console renderer
(pretty) or — structured — the exception-group processor (only if
`hasattr(__builtins__, "BaseExceptionGroup")`), the dict-tracebacks exception
renderer, the Unicode decoder and the JSON renderer. -/
def logging_processors_list (builtinsHasBEG : Bool) (enable_pretty_log : Bool) :
    List ProcTag :=
  let timestamper :=
    if enable_pretty_log then ProcTag.maybeTimeStamper "%Y-%m-%d %H:%M:%S.%f"
    else ProcTag.maybeTimeStamper "iso"
  let processors : List ProcTag :=
    [timestamper, ProcTag.mergeContextvars, ProcTag.addLogLevel,
     ProcTag.positionalArgumentsFormatter, ProcTag.loggerNameProc,
     ProcTag.redactJwtProc, ProcTag.stackInfoRenderer]
  if enable_pretty_log then
    processors ++ [ProcTag.consoleRenderer]
  else
    (if builtinsHasBEG then processors ++ [ProcTag.excGroupProcessor]
     else processors)
    ++ [ProcTag.exceptionRenderer, ProcTag.unicodeDecoder, ProcTag.jsonRenderer]

/-- A built pipeline: the ordered processor list plus an allocation identity
(`pid`).  Two pipelines are the same Python object exactly when their `pid`s
agree, because every actual execution of the builder body allocates a fresh
`pid`. -/
structure Pipeline where
  pid : Nat
  procs : List ProcTag
deriving DecidableEq, Repr

/-- A warning handler value: the interpreter's import-time default
`warnings.showwarning`, this module's `_showwarning` bridge, or any other
handler object. -/
inductive WarnHandler where
  | runtimeDefault
  | bridge
  | other (n : Nat)
deriving DecidableEq, Repr

/-- The argument tuple of `configure_logging` (the `functools.cache` key).
An output stream (`BinaryIO`) is identified by a number. -/
structure CfgArgs where
  enable_pretty_log : Bool
  log_level : String
  output : Option Nat
  cache_logger_on_first_use : Bool
deriving DecidableEq, Repr

/-- Errors `configure_logging` can raise: the explicit `ValueError` for the
pretty/output combination (log.py line 234) and the `KeyError` from
`structlog.stdlib.NAME_TO_LEVEL[log_level.lower()]` (line 236). -/
inductive ConfigError where
  | valueError (msg : String)
  | keyError (key : String)
deriving DecidableEq, Repr

/-- `structlog.stdlib.NAME_TO_LEVEL`, the level-name table the source indexes
with `log_level.lower()` (an external structlog constant, reproduced). -/
def NAME_TO_LEVEL : List (String × Nat) :=
  [("critical", 50), ("exception", 40), ("error", 40), ("warn", 30),
   ("warning", 30), ("info", 20), ("debug", 10), ("notset", 0)]

/-- Process-wide mutable state of the module: the `functools.cache` memo of
`logging_processors` (keyed by `enable_pretty_log`), the memo of
`configure_logging` (keyed by its argument tuple, holding the pipeline that
call wired in; `functools.cache` never stores a raising call), the allocation
counter for pipeline identities, `warnings.showwarning`, and the module global
`_warnings_showwarning` (initially `None`, i.e. `none`). -/
structure Sys where
  procCache : List (Bool × Pipeline)
  cfgCache : List (CfgArgs × Pipeline)
  nextId : Nat
  showwarning : Option WarnHandler
  saved : Option WarnHandler
deriving DecidableEq, Repr

/-- The module state at import time: empty caches, the runtime default
warning handler installed, `_warnings_showwarning = None`. -/
def initSys : Sys :=
  { procCache := [], cfgCache := [], nextId := 0,
    showwarning := some WarnHandler.runtimeDefault, saved := none }

/-- `logging_processors` as the `@cache`-wrapped callable (log.py lines
125-222): on a cache hit the body is skipped and the previously built objects
are returned unchanged; otherwise the body builds the processor chain (a fresh
allocation) and the memo is extended. -/
def logging_processors (builtinsHasBEG : Bool) (enable_pretty_log : Bool)
    (s : Sys) : Pipeline × Sys :=
  match alistGet s.procCache enable_pretty_log with
  | some p => (p, s)
  | none =>
    let p : Pipeline :=
      { pid := s.nextId,
        procs := logging_processors_list builtinsHasBEG enable_pretty_log }
    (p, { s with procCache := s.procCache ++ [(enable_pretty_log, p)],
                 nextId := s.nextId + 1 })

/-- `configure_logging` as the `@cache`-wrapped callable (log.py lines
225-339).  Modelled effects: the `ValueError` precondition check, the
`NAME_TO_LEVEL[log_level.lower()]` lookup, fetching the memoized processor
chain, and the idempotent installation of the warning bridge
(`if _warnings_showwarning is None: save it; warnings.showwarning =
_showwarning`).  The `structlog.configure` / `logging.config.dictConfig` calls
configure external collaborators and, like the `PYTEST_CURRENT_TEST` override
of `cache_logger_on_first_use`, have no further effect on the state modelled
here.  The returned `Pipeline` is the processor chain the call wired in. -/
def configure_logging (builtinsHasBEG : Bool) (a : CfgArgs) (s : Sys) :
    Except ConfigError (Pipeline × Sys) :=
  match alistGet s.cfgCache a with
  | some p => Except.ok (p, s)
  | none =>
    if a.enable_pretty_log && a.output.isSome then
      Except.error
        (ConfigError.valueError "output can only be set if enable_pretty_log is not")
    else
      match alistGet NAME_TO_LEVEL (pyLower a.log_level) with
      | none => Except.error (ConfigError.keyError (pyLower a.log_level))
      | some _lvl =>
        let ps := logging_processors builtinsHasBEG a.enable_pretty_log s
        let s1 := ps.2
        let s2 :=
          match s1.saved with
          | none => { s1 with saved := s1.showwarning,
                              showwarning := some WarnHandler.bridge }
          | some _ => s1
        Except.ok (ps.1, { s2 with cfgCache := s2.cfgCache ++ [(a, ps.1)] })

/-- `reset_logging` (log.py lines 342-345): `warnings.showwarning =
_warnings_showwarning` and `configure_logging.cache_clear()`.  Note the body
neither assigns `_warnings_showwarning = None` nor clears the
`logging_processors` cache. -/
def reset_logging (s : Sys) : Sys :=
  { s with showwarning := s.saved, cfgCache := [] }

/-- The structured event `_showwarning` emits through
`structlog.get_logger(logger_name="py.warnings").warning(str(message),
category=category.__name__, filename=filename, lineno=lineno)`. -/
structure WarningEvent where
  loggerName : String
  level : String
  message : String
  category : String
  filename : String
  lineno : Nat
deriving DecidableEq, Repr

/-- What one `_showwarning` call did: delegated to the saved prior handler,
emitted a structured event, or did nothing (a file was given but no prior
handler is saved). -/
inductive WarnAction where
  | delegated (h : WarnHandler) (file : Nat)
  | emitted (e : WarningEvent)
  | nothing
deriving DecidableEq, Repr

/-- `_showwarning` (log.py lines 351-373): with an explicit `file`, delegate
to `_warnings_showwarning` when one is saved; otherwise log the warning as a
structured event at "warning" severity under the fixed logger name
`"py.warnings"` with `category`, `filename` and `lineno` fields.  `saved` is
the current value of the module global `_warnings_showwarning`. -/
def showwarning_bridge (saved : Option WarnHandler) (message : String)
    (category : String) (filename : String) (lineno : Nat)
    (file : Option Nat) : WarnAction :=
  match file with
  | some f =>
    (match saved with
     | some h => WarnAction.delegated h f
     | none => WarnAction.nothing)
  | none =>
    WarnAction.emitted
      { loggerName := "py.warnings", level := "warning", message := message,
        category := category, filename := filename, lineno := lineno }

/-- An exception raised inside `StdBinaryStreamHandler.emit`'s `try` block:
`RecursionError` or any other `Exception`. -/
inductive EmitErr where
  | recursionError
  | otherError (n : Nat)
deriving DecidableEq, Repr

/-- `bytearray(msg, "utf-8", "backslashreplace")`: UTF-8 encoding of the
formatted record.  Lean strings contain no lone surrogates, so the
`backslashreplace` fallback is never exercised and the encoding never
raises — as the source relies on. -/
def encodeUtf8 (s : String) : List UInt8 :=
  s.toUTF8.data.toList

/-- Observable outcome of one `StdBinaryStreamHandler.emit` call: the bytes
written to the stream (if the write was reached and succeeded), whether
`flush` completed, whether `self.handleError(record)` — the stdlib logging
error path — was invoked, and the exception re-raised to the caller, if any. -/
structure EmitResult where
  written : Option (List UInt8)
  flushed : Bool
  handled : Bool
  raised : Option EmitErr
deriving DecidableEq, Repr

namespace StdBinaryStreamHandler

/-- `StdBinaryStreamHandler.emit` (log.py lines 109-122).  The fallible
operations inside the `try` block — `self.format(record)`, `stream.write`,
`self.flush()` — are modelled by their outcomes, passed as parameters.  The
`except RecursionError: raise` clause re-raises that one exception; every
other `Exception` is routed to `self.handleError(record)`. -/
def emit (formatRes : Except EmitErr String) (writeRes : Except EmitErr Unit)
    (flushRes : Except EmitErr Unit) : EmitResult :=
  match formatRes with
  | Except.error EmitErr.recursionError =>
    { written := none, flushed := false, handled := false,
      raised := some EmitErr.recursionError }
  | Except.error _ =>
    { written := none, flushed := false, handled := true, raised := none }
  | Except.ok msg =>
    -- `buffer = bytearray(msg, "utf-8", "backslashreplace"); buffer += b"\n"`
    let buffer := encodeUtf8 msg ++ [(10 : UInt8)]
    match writeRes with
    | Except.error EmitErr.recursionError =>
      { written := none, flushed := false, handled := false,
        raised := some EmitErr.recursionError }
    | Except.error _ =>
      { written := none, flushed := false, handled := true, raised := none }
    | Except.ok _ =>
      match flushRes with
      | Except.error EmitErr.recursionError =>
        { written := some buffer, flushed := false, handled := false,
          raised := some EmitErr.recursionError }
      | Except.error _ =>
        { written := some buffer, flushed := false, handled := true,
          raised := none }
      | Except.ok _ =>
        { written := some buffer, flushed := true, handled := false,
          raised := none }

end StdBinaryStreamHandler

/-- The modules whose frames the exception formatters are told to suppress
(log.py lines 146-158): `click`, `contextlib`, `httpx`, `httpcore`. -/
inductive PyModule where
  | click
  | contextlib
  | httpx
  | httpcore
deriving DecidableEq, Repr

/-- The `suppress` tuple built at log.py lines 152-158 — note `httpx` appears
twice in the source tuple. -/
def suppress_modules : List PyModule :=
  [PyModule.click, PyModule.contextlib, PyModule.httpx, PyModule.httpcore,
   PyModule.httpx]

/-- The arguments the source passes to
`structlog.dev.RichTracebackFormatter` in Pretty mode (log.py lines
161-168). -/
structure RichTracebackFormatterArgs where
  extra_lines : Nat
  max_frames : Nat
  indent_guides : Bool
  suppress : List PyModule
deriving DecidableEq, Repr

def rich_exc_formatter_args : RichTracebackFormatterArgs :=
  { extra_lines := 0, max_frames := 30, indent_guides := false,
    suppress := suppress_modules }

/-- The arguments the source passes to
`structlog.tracebacks.ExceptionDictTransformer` in Structured mode (log.py
lines 188-190).  `max_frames := none` records that the source passes no
`max_frames` argument there, so the library default — not 30 — applies. -/
structure ExceptionDictTransformerArgs where
  use_rich : Bool
  show_locals : Bool
  suppress : List PyModule
  max_frames : Option Nat
deriving DecidableEq, Repr

def dict_exc_formatter_args : ExceptionDictTransformerArgs :=
  { use_rich := false, show_locals := false, suppress := suppress_modules,
    max_frames := none }

/-- Where a traceback frame's source code lives: one of the importable noise
modules, or application code identified by a file name. -/
inductive FrameOrigin where
  | lib (m : PyModule)
  | app (file : String)
deriving DecidableEq, Repr

/-- A raw traceback frame before formatting. -/
structure RawFrame where
  origin : FrameOrigin
  lineno : Nat
  name : String
  localVars : List (String × String)
deriving DecidableEq, Repr

/-- A formatted frame record in the structured `exception` field: the local
variables are `none` when local-variable capture is disabled. -/
structure OutFrame where
  origin : FrameOrigin
  lineno : Nat
  name : String
  localVars : Option (List (String × String))
deriving DecidableEq, Repr

/-- Does this raw frame originate from a suppressed noise module? -/
def frameSuppressed (suppress : List PyModule) (f : RawFrame) : Bool :=
  match f.origin with
  | FrameOrigin.lib m => suppress.contains m
  | FrameOrigin.app _ => false

/-- Does this output frame originate from one of the configured noise
modules? -/
def outFrameFromNoise (f : OutFrame) : Bool :=
  match f.origin with
  | FrameOrigin.lib m => suppress_modules.contains m
  | FrameOrigin.app _ => false

/-- Modelled from the spec: the structured Exception Formatter is structlog's
`ExceptionDictTransformer`, whose code is not part of this repository's
sources — `src` only constructs it with `dict_exc_formatter_args`.  Spec
§4.2(b) specifies that in Structured mode it produces "a structured list of
frame records ... with local-variable capture disabled and the same
noise-suppression set applied": frames originating from the suppressed
modules are omitted, local variables are captured only when `show_locals` is
set, and a frame cap applies only when one is configured through
`max_frames` (the source configures a 30-frame cap only for the Pretty-mode
`RichTracebackFormatter`). -/
def formatFramesStructured (args : ExceptionDictTransformerArgs)
    (frames : List RawFrame) : List OutFrame :=
  let kept := frames.filter (fun f => !(frameSuppressed args.suppress f))
  let capped :=
    match args.max_frames with
    | some n => kept.take n
    | none => kept
  capped.map (fun f =>
    { origin := f.origin, lineno := f.lineno, name := f.name,
      localVars := if args.show_locals then some f.localVars else none })

/-- The exception label (type/message identity) of an exception value. -/
def ExcVal.label : ExcVal → String
  | ExcVal.single l => l
  | ExcVal.group l _ => l

/-- A concrete `format_exception` stand-in producing one formatted frame
record per exception, as the spec's flattening property assumes ("one
formatted unit per sub-failure plus one for the group itself"). -/
def fmtOneFrame (e : ExcVal) : List FrameRec :=
  [{ filename := "task.py", lineno := 1, name := e.label }]

/-- An event whose failure info is an exception group with two nested
sub-failures. -/
def evGroup : EventDict :=
  [("event", Value.str "boom"),
   ("exc_info",
    Value.exc (ExcVal.group "grp" [ExcVal.single "a", ExcVal.single "b"]))]

/-- Concrete `configure_logging` arguments: Structured mode, level "INFO",
destination stream 0. -/
def argsStructured : CfgArgs :=
  { enable_pretty_log := false, log_level := "INFO", output := some 0,
    cache_logger_on_first_use := true }

/-- The pipeline the first Structured-mode build allocates from `initSys`
(`builtinsHasBEG = false`, the imported-module condition). -/
def structuredPipeline : Pipeline :=
  { pid := 0, procs := logging_processors_list false false }

/-- The module state after `configure_logging argsStructured` from
`initSys`. -/
def sysConfigured : Sys :=
  { procCache := [(false, structuredPipeline)],
    cfgCache := [(argsStructured, structuredPipeline)],
    nextId := 1, showwarning := some WarnHandler.bridge,
    saved := some WarnHandler.runtimeDefault }

/-- The module state after `configure_logging`, `reset_logging`, and a second
`configure_logging` with the same arguments. -/
def sysReconfigured : Sys :=
  { procCache := [(false, structuredPipeline)],
    cfgCache := [(argsStructured, structuredPipeline)],
    nextId := 1, showwarning := some WarnHandler.runtimeDefault,
    saved := some WarnHandler.runtimeDefault }

/-- Thirty-one application-code traceback frames (none from a noise
module). -/
def manyAppFrames : List RawFrame :=
  (List.range 31).map (fun i =>
    { origin := FrameOrigin.app "dag.py", lineno := i, name := "run",
      localVars := [] })

/-! ## Helper lemmas -/

theorem alistGet_append_singleton {α β : Type} [DecidableEq α]
    (l : List (α × β)) (k : α) (v : β) (h : alistGet l k = none) :
    alistGet (l ++ [(k, v)]) k = some v := by
  induction l with
  | nil => simp [alistGet]
  | cons kv rest ih =>
    by_cases hk : kv.1 = k
    · simp [alistGet, hk] at h
    · simp only [alistGet, List.cons_append, if_neg hk] at h ⊢
      exact ih h

theorem logging_processors_stateFields (b m : Bool) (s : Sys) :
    (logging_processors b m s).2.saved = s.saved ∧
    (logging_processors b m s).2.showwarning = s.showwarning ∧
    (logging_processors b m s).2.cfgCache = s.cfgCache := by
  unfold logging_processors
  cases alistGet s.procCache m <;> simp

theorem logging_processors_cached (b m : Bool) (s : Sys) :
    alistGet ((logging_processors b m s).2).procCache m =
      some (logging_processors b m s).1 := by
  unfold logging_processors
  cases h : alistGet s.procCache m with
  | none => simpa using alistGet_append_singleton s.procCache m _ h
  | some p => simpa using h

theorem logging_processors_hit (b m : Bool) (s : Sys) (p : Pipeline)
    (h : alistGet s.procCache m = some p) :
    logging_processors b m s = (p, s) := by
  simp [logging_processors, h]

theorem configure_logging_hit (hasBEG : Bool) (a : CfgArgs) (s : Sys)
    (p : Pipeline) (h : alistGet s.cfgCache a = some p) :
    configure_logging hasBEG a s = Except.ok (p, s) := by
  simp [configure_logging, h]

theorem configure_logging_caches (hasBEG : Bool) (a : CfgArgs) (s : Sys)
    (p : Pipeline) (s1 : Sys)
    (h : configure_logging hasBEG a s = Except.ok (p, s1)) :
    alistGet s1.cfgCache a = some p := by
  unfold configure_logging at h
  cases hm : alistGet s.cfgCache a with
  | some q =>
    rw [hm] at h
    simp only [Except.ok.injEq, Prod.mk.injEq] at h
    obtain ⟨hp, hs⟩ := h
    subst hp
    subst hs
    exact hm
  | none =>
    rw [hm] at h
    by_cases hpo : (a.enable_pretty_log && a.output.isSome) = true
    · simp [hpo] at h
    · rw [Bool.not_eq_true] at hpo
      rw [if_neg (by simp [hpo])] at h
      cases hlv : alistGet NAME_TO_LEVEL (pyLower a.log_level) with
      | none => rw [hlv] at h; simp at h
      | some lvl =>
        rw [hlv] at h
        simp only [] at h
        have hcfg :=
          (logging_processors_stateFields hasBEG a.enable_pretty_log s).2.2
        cases hsv : (logging_processors hasBEG a.enable_pretty_log s).2.saved
          with
        | none =>
          rw [hsv] at h
          simp only [Except.ok.injEq, Prod.mk.injEq] at h
          obtain ⟨hp, hs⟩ := h
          subst hp
          subst hs
          simpa [hcfg] using
            alistGet_append_singleton s.cfgCache a _ hm
        | some w =>
          rw [hsv] at h
          simp only [Except.ok.injEq, Prod.mk.injEq] at h
          obtain ⟨hp, hs⟩ := h
          subst hp
          subst hs
          simpa [hcfg] using
            alistGet_append_singleton s.cfgCache a _ hm

theorem configure_logging_eval_unsaved (hasBEG : Bool) (a : CfgArgs) (s : Sys)
    (lvl : Nat)
    (hmiss : alistGet s.cfgCache a = none)
    (hpo : (a.enable_pretty_log && a.output.isSome) = false)
    (hlv : alistGet NAME_TO_LEVEL (pyLower a.log_level) = some lvl)
    (hsv : s.saved = none) :
    configure_logging hasBEG a s =
      Except.ok ((logging_processors hasBEG a.enable_pretty_log s).1,
        { (logging_processors hasBEG a.enable_pretty_log s).2 with
          saved := s.showwarning,
          showwarning := some WarnHandler.bridge,
          cfgCache := s.cfgCache ++
            [(a, (logging_processors hasBEG a.enable_pretty_log s).1)] }) := by
  have hst := logging_processors_stateFields hasBEG a.enable_pretty_log s
  have hzv : (logging_processors hasBEG a.enable_pretty_log s).2.saved = none := by
    rw [hst.1, hsv]
  unfold configure_logging
  simp only [hmiss, hpo, Bool.false_eq_true, if_false, hlv, hzv]
  rw [hst.2.1, hst.2.2]

theorem configure_logging_eval_saved (hasBEG : Bool) (a : CfgArgs) (s : Sys)
    (lvl : Nat) (w : WarnHandler)
    (hmiss : alistGet s.cfgCache a = none)
    (hpo : (a.enable_pretty_log && a.output.isSome) = false)
    (hlv : alistGet NAME_TO_LEVEL (pyLower a.log_level) = some lvl)
    (hsv : s.saved = some w) :
    configure_logging hasBEG a s =
      Except.ok ((logging_processors hasBEG a.enable_pretty_log s).1,
        { (logging_processors hasBEG a.enable_pretty_log s).2 with
          cfgCache := s.cfgCache ++
            [(a, (logging_processors hasBEG a.enable_pretty_log s).1)] }) := by
  have hst := logging_processors_stateFields hasBEG a.enable_pretty_log s
  have hzv : (logging_processors hasBEG a.enable_pretty_log s).2.saved = some w := by
    rw [hst.1, hsv]
  unfold configure_logging
  simp only [hmiss, hpo, Bool.false_eq_true, if_false, hlv, hzv]
  rw [hst.2.2]

/-! ## Claims -/

/-- C1: for every call to `configure_logging`, if `enable_pretty_log` is true
and an `output` destination is supplied (non-null) the call fails the
precondition check with the `ValueError` configuration error immediately (for
every `log_level` string, valid or not, and every state whose memo does not
already hold the argument tuple — `functools.cache` never memoizes a raising
call); if `enable_pretty_log` is true and `output` is `None`, the call
succeeds for every valid level name. -/
theorem c1_pretty_output_precondition :
    (∀ (hasBEG : Bool) (a : CfgArgs) (s : Sys),
        alistGet s.cfgCache a = none →
        a.enable_pretty_log = true → a.output.isSome = true →
        configure_logging hasBEG a s =
          Except.error (ConfigError.valueError
            "output can only be set if enable_pretty_log is not")) ∧
    (∀ (hasBEG : Bool) (a : CfgArgs) (s : Sys),
        a.enable_pretty_log = true → a.output = none →
        (alistGet NAME_TO_LEVEL (pyLower a.log_level)).isSome = true →
        ∃ p s1, configure_logging hasBEG a s = Except.ok (p, s1)) := by
  constructor
  · intro hasBEG a s hmiss hpretty hout
    unfold configure_logging
    rw [hmiss]
    simp [hpretty, hout]
  · intro hasBEG a s hpretty hout hlvl
    unfold configure_logging
    cases hmiss : alistGet s.cfgCache a with
    | some p => exact ⟨p, s, rfl⟩
    | none =>
      obtain ⟨lvl, hlvl'⟩ := Option.isSome_iff_exists.mp hlvl
      rw [hlvl']
      simp [hpretty, hout]

/-- C1 witness: at concrete inputs, `configure_logging(pretty, output=0)`
raises the `ValueError` and `configure_logging(pretty, output=None)`
succeeds. -/
theorem c1_witness :
    configure_logging false
      { enable_pretty_log := true, log_level := "DEBUG", output := some 0,
        cache_logger_on_first_use := true } initSys =
      Except.error (ConfigError.valueError
        "output can only be set if enable_pretty_log is not") ∧
    ∃ p s1,
      configure_logging false
        { enable_pretty_log := true, log_level := "DEBUG", output := none,
          cache_logger_on_first_use := true } initSys =
        Except.ok (p, s1) :=
  ⟨c1_pretty_output_precondition.1 false _ initSys (by rfl) rfl rfl,
   c1_pretty_output_precondition.2 false _ initSys rfl rfl (by rfl)⟩

/-- C2: `redact_jwt` replaces the value of every top-level string-valued field
whose value begins with `"eyJ"` by the literal `"eyJ***"` (keeping the field's
key and position), leaves every other field untouched, and returns an event
with no such field entirely unchanged. -/
theorem c2_redact_jwt_spec :
    (∀ e : EventDict,
        (∀ kv, kv ∈ e → jwtMatch kv.2 = false) → redact_jwt e = e) ∧
    (∀ e : EventDict, (redact_jwt e).map Prod.fst = e.map Prod.fst) ∧
    (∀ (e : EventDict) (i : Nat),
        (redact_jwt e)[i]? =
          (e[i]?).map (fun kv =>
            if jwtMatch kv.2 then (kv.1, Value.str "eyJ***") else kv)) := by
  refine ⟨?_, ?_, ?_⟩
  · intro e h
    induction e with
    | nil => rfl
    | cons kv rest ih =>
      have hkv : jwtMatch kv.2 = false := h kv (List.mem_cons_self kv rest)
      have hrest : redact_jwt rest = rest :=
        ih (fun kv' hkv' => h kv' (List.mem_cons_of_mem kv hkv'))
      simp [redact_jwt, redactValue, hkv, hrest]
  · intro e
    induction e with
    | nil => rfl
    | cons kv rest ih => simp [redact_jwt, ih]
  · intro e
    induction e with
    | nil => intro i; rfl
    | cons kv rest ih =>
      intro i
      cases i with
      | zero =>
        simp only [redact_jwt, redactValue, List.getElem?_cons_zero, Option.map_some]
        cases h : jwtMatch kv.2 <;> simp [h]
      | succ j => simpa [redact_jwt] using ih j

/-- C2 witness: a concrete event with a token-like field and an unrelated
field is redacted value-locally and in order, and a concrete event without
such a field passes through unchanged. -/
theorem c2_witness :
    redact_jwt [("event", Value.str "done"), ("retries", Value.num 3)] =
      [("event", Value.str "done"), ("retries", Value.num 3)] ∧
    (redact_jwt [("token", Value.str "eyJabc"), ("event", Value.str "done")])[0]? =
      some ("token", Value.str "eyJ***") :=
  ⟨c2_redact_jwt_spec.1 [("event", Value.str "done"), ("retries", Value.num 3)]
      (by decide),
   by
     rw [c2_redact_jwt_spec.2.2
       [("token", Value.str "eyJabc"), ("event", Value.str "done")] 0]
     rfl⟩

/-- C3: the pipeline builder is memoized per mode — calling
`logging_processors` again in the state left by a first call returns exactly
the first call's result (the same pipeline object, no new allocation, state
unchanged) — and calling `configure_logging` twice with identical arguments
returns the first call's `Pipeline` instance, with the state unchanged by the
second call. -/
theorem c3_memoized_pipeline :
    (∀ (b m : Bool) (s : Sys),
        logging_processors b m ((logging_processors b m s).2) =
          logging_processors b m s) ∧
    (∀ (hasBEG : Bool) (a : CfgArgs) (s : Sys) (p : Pipeline) (s1 : Sys),
        configure_logging hasBEG a s = Except.ok (p, s1) →
        configure_logging hasBEG a s1 = Except.ok (p, s1)) := by
  constructor
  · intro b m s
    rw [logging_processors_hit b m _ _ (logging_processors_cached b m s)]
  · intro hasBEG a s p s1 h
    exact configure_logging_hit hasBEG a s1 p
      (configure_logging_caches hasBEG a s p s1 h)

/-- C3 witness: after a concrete first `configure_logging` call from the
import-time state, the identical second call returns the same `Pipeline`
instance and leaves the state untouched. -/
theorem c3_witness :
    configure_logging false argsStructured sysConfigured =
      Except.ok (structuredPipeline, sysConfigured) :=
  c3_memoized_pipeline.2 false argsStructured initSys structuredPipeline
    sysConfigured (by rfl)

/-- C4 counterexample: in the concrete trace configure → reset → configure
(Structured mode, from the import-time state, in the imported-module
condition), after `reset_logging` the saved prior-handler reference still
holds the runtime default — it is NOT cleared — and the next
`configure_logging` call returns `structuredPipeline` again, the very same
instance (`pid` 0) as the first call, not a fresh distinct one. -/
theorem c4_counterexample :
    configure_logging false argsStructured initSys =
      Except.ok (structuredPipeline, sysConfigured) ∧
    (reset_logging sysConfigured).showwarning =
      some WarnHandler.runtimeDefault ∧
    (reset_logging sysConfigured).saved = some WarnHandler.runtimeDefault ∧
    (reset_logging sysConfigured).saved ≠ none ∧
    configure_logging false argsStructured (reset_logging sysConfigured) =
      Except.ok (structuredPipeline, sysReconfigured) := by
  refine ⟨by rfl, by rfl, by rfl, by decide, by rfl⟩

/-- C4 (amended): after a first successful fresh `configure_logging` call
(no handler saved yet, arguments not yet memoized), `reset_logging` restores
`warnings.showwarning` to exactly what it was before that call and clears the
`configure_logging` memo; however it does NOT clear the saved prior-handler
reference (`_warnings_showwarning` keeps the prior handler), and the
`logging_processors` memo survives, so the next `configure_logging` call with
the same arguments re-runs its body but wires in the SAME `Pipeline` instance
rather than a fresh one, and — finding the reference still set — does not
re-install the warning bridge. -/
theorem c4_reset_restores_but_keeps_memo (hasBEG : Bool) (a : CfgArgs)
    (w : WarnHandler) (s : Sys) (lvl : Nat)
    (hw : s.showwarning = some w) (hsv : s.saved = none)
    (hmiss : alistGet s.cfgCache a = none)
    (hpo : (a.enable_pretty_log && a.output.isSome) = false)
    (hlv : alistGet NAME_TO_LEVEL (pyLower a.log_level) = some lvl) :
    ∃ p s1, configure_logging hasBEG a s = Except.ok (p, s1) ∧
      (reset_logging s1).showwarning = some w ∧
      (reset_logging s1).saved = some w ∧
      (reset_logging s1).cfgCache = [] ∧
      ∃ s2, configure_logging hasBEG a (reset_logging s1) =
              Except.ok (p, s2) ∧
        s2.showwarning = some w ∧ s2.saved = some w := by
  have hst := logging_processors_stateFields hasBEG a.enable_pretty_log s
  have h1 := configure_logging_eval_unsaved hasBEG a s lvl hmiss hpo hlv hsv
  refine ⟨(logging_processors hasBEG a.enable_pretty_log s).1, _, h1, ?_, ?_, ?_, ?_⟩
  · simp [reset_logging, hw]
  · simp [reset_logging, hw]
  · simp [reset_logging]
  · -- the second configure call, after reset
    have h2 := configure_logging_eval_saved hasBEG a
      (reset_logging
        { (logging_processors hasBEG a.enable_pretty_log s).2 with
          saved := s.showwarning,
          showwarning := some WarnHandler.bridge,
          cfgCache := s.cfgCache ++
            [(a, (logging_processors hasBEG a.enable_pretty_log s).1)] })
      lvl w (by simp [reset_logging, alistGet]) hpo hlv
      (by simp [reset_logging, hw])
    have h3 : logging_processors hasBEG a.enable_pretty_log
        (reset_logging
          { (logging_processors hasBEG a.enable_pretty_log s).2 with
            saved := s.showwarning,
            showwarning := some WarnHandler.bridge,
            cfgCache := s.cfgCache ++
              [(a, (logging_processors hasBEG a.enable_pretty_log s).1)] }) =
        ((logging_processors hasBEG a.enable_pretty_log s).1,
          reset_logging
            { (logging_processors hasBEG a.enable_pretty_log s).2 with
              saved := s.showwarning,
              showwarning := some WarnHandler.bridge,
              cfgCache := s.cfgCache ++
                [(a, (logging_processors hasBEG a.enable_pretty_log s).1)] }) := by
      apply logging_processors_hit
      simpa [reset_logging] using
        logging_processors_cached hasBEG a.enable_pretty_log s
    rw [h3] at h2
    refine ⟨_, h2, ?_, ?_⟩
    · simp [reset_logging, hw]
    · simp [reset_logging, hw]

/-- C4 witness: the amended behaviour at the concrete Structured-mode trace
from the import-time state. -/
theorem c4_witness :
    ∃ p s1, configure_logging false argsStructured initSys =
        Except.ok (p, s1) ∧
      (reset_logging s1).showwarning = some WarnHandler.runtimeDefault ∧
      (reset_logging s1).saved = some WarnHandler.runtimeDefault ∧
      (reset_logging s1).cfgCache = [] ∧
      ∃ s2, configure_logging false argsStructured (reset_logging s1) =
              Except.ok (p, s2) ∧
        s2.showwarning = some WarnHandler.runtimeDefault ∧
        s2.saved = some WarnHandler.runtimeDefault :=
  c4_reset_restores_but_keeps_memo false argsStructured
    WarnHandler.runtimeDefault initSys 20 rfl rfl (by rfl) (by rfl) (by rfl)

/-- C5 (evaluation of the code at the failing input): in the deployed,
imported-module condition (`builtinsHasBEG = false`) the processor returned
by `exception_group_tracebacks` leaves an event whose `exc_info` is an
exception group with two nested sub-failures COMPLETELY UNCHANGED — the
placeholder class bound in the closure cell matches nothing — and in fact is
the identity on every event; in the only other condition
(`builtinsHasBEG = true`, the module run as `__main__` on Python 3.11+) the
closure cell is unbound and the processor raises `NameError` on that same
event, and on every truthy failure payload, a single non-group failure
included, instead of passing it through.  Under no condition does the
processor remove `exc_info` or produce the claimed flattened 3-entry list:
the flattening branch is dead code. -/
theorem c5_exception_group_flattening :
    exception_group_tracebacks false fmtOneFrame none evGroup =
      Except.ok evGroup ∧
    exception_group_tracebacks true fmtOneFrame none evGroup =
      Except.error (ProcError.nameError "BaseExceptionGroup") ∧
    (∀ (fmt : ExcVal → List FrameRec) (curr : Option ExcVal) (e : EventDict),
        exception_group_tracebacks false fmt curr e = Except.ok e) ∧
    (∀ (fmt : ExcVal → List FrameRec) (curr : Option ExcVal) (lbl : String),
        exception_group_tracebacks true fmt curr
          [("exc_info", Value.exc (ExcVal.single lbl))] =
          Except.error (ProcError.nameError "BaseExceptionGroup")) := by
  refine ⟨by rfl, by rfl, ?_, ?_⟩
  · intro fmt curr e
    unfold exception_group_tracebacks
    cases halist : alistGet e "exc_info" with
    | none => rfl
    | some v =>
      rcases v with s | n | b2 | ex | ext | fr
      · show (if (!(Value.str s).truthy) = true
            then (Except.ok e : Except ProcError EventDict)
            else Except.ok e) = Except.ok e
        exact ite_self _
      · show (if (!(Value.num n).truthy) = true
            then (Except.ok e : Except ProcError EventDict)
            else Except.ok e) = Except.ok e
        exact ite_self _
      · cases b2
        · rfl
        · cases curr <;> rfl
      · rfl
      · rfl
      · show (if (!(Value.frames fr).truthy) = true
            then (Except.ok e : Except ProcError EventDict)
            else Except.ok e) = Except.ok e
        exact ite_self _
  · intro fmt curr lbl
    rfl

/-- C6 (evaluation of the code): the complete processor chains for every
mode/condition.  In Structured mode the fixed ordering holds and the JSON
renderer is always last, but the exception-group flattening processor is
present only when `hasattr(__builtins__, "BaseExceptionGroup")` is true —
which is never the case for this always-imported library module, where
`__builtins__` is the builtins dict — so in deployment it is absent. -/
theorem c6_pipeline_order :
    logging_processors_list true false =
      [ProcTag.maybeTimeStamper "iso", ProcTag.mergeContextvars,
       ProcTag.addLogLevel, ProcTag.positionalArgumentsFormatter,
       ProcTag.loggerNameProc, ProcTag.redactJwtProc,
       ProcTag.stackInfoRenderer, ProcTag.excGroupProcessor,
       ProcTag.exceptionRenderer, ProcTag.unicodeDecoder,
       ProcTag.jsonRenderer] ∧
    logging_processors_list false false =
      [ProcTag.maybeTimeStamper "iso", ProcTag.mergeContextvars,
       ProcTag.addLogLevel, ProcTag.positionalArgumentsFormatter,
       ProcTag.loggerNameProc, ProcTag.redactJwtProc,
       ProcTag.stackInfoRenderer,
       ProcTag.exceptionRenderer, ProcTag.unicodeDecoder,
       ProcTag.jsonRenderer] ∧
    (∀ b : Bool, logging_processors_list b true =
      [ProcTag.maybeTimeStamper "%Y-%m-%d %H:%M:%S.%f",
       ProcTag.mergeContextvars, ProcTag.addLogLevel,
       ProcTag.positionalArgumentsFormatter, ProcTag.loggerNameProc,
       ProcTag.redactJwtProc, ProcTag.stackInfoRenderer,
       ProcTag.consoleRenderer]) ∧
    ProcTag.excGroupProcessor ∉ logging_processors_list false false := by
  refine ⟨by rfl, by rfl, ?_, by decide⟩
  intro b
  cases b <;> rfl

/-- C7: `StdBinaryStreamHandler.emit` encodes the formatted record as UTF-8,
appends exactly one trailing newline, writes the bytes and flushes; whatever
fails inside the `try` block, the only exception ever re-raised to the caller
is `RecursionError`, and whenever nothing is re-raised either the error was
routed to `handleError` (the framework error path) or the write-and-flush
fully succeeded. -/
theorem c7_emit_contract :
    (∀ m : String,
        StdBinaryStreamHandler.emit (Except.ok m) (Except.ok ())
            (Except.ok ()) =
          { written := some (encodeUtf8 m ++ [(10 : UInt8)]), flushed := true,
            handled := false, raised := none }) ∧
    (∀ (f : Except EmitErr String) (w fl : Except EmitErr Unit),
        (StdBinaryStreamHandler.emit f w fl).raised = none ∨
        (StdBinaryStreamHandler.emit f w fl).raised =
          some EmitErr.recursionError) ∧
    (∀ (f : Except EmitErr String) (w fl : Except EmitErr Unit),
        (StdBinaryStreamHandler.emit f w fl).raised =
          some EmitErr.recursionError →
        f = Except.error EmitErr.recursionError ∨
        w = Except.error EmitErr.recursionError ∨
        fl = Except.error EmitErr.recursionError) ∧
    (∀ (f : Except EmitErr String) (w fl : Except EmitErr Unit),
        (StdBinaryStreamHandler.emit f w fl).raised = none →
        (StdBinaryStreamHandler.emit f w fl).handled = true ∨
        ((StdBinaryStreamHandler.emit f w fl).flushed = true ∧
         ∃ m, f = Except.ok m ∧
           (StdBinaryStreamHandler.emit f w fl).written =
             some (encodeUtf8 m ++ [(10 : UInt8)]))) := by
  refine ⟨fun m => rfl, ?_, ?_, ?_⟩
  · intro f w fl
    rcases f with e | m
    · cases e <;> simp [StdBinaryStreamHandler.emit]
    · rcases w with e | u
      · cases e <;> simp [StdBinaryStreamHandler.emit]
      · rcases fl with e | u2
        · cases e <;> simp [StdBinaryStreamHandler.emit]
        · simp [StdBinaryStreamHandler.emit]
  · intro f w fl h
    rcases f with e | m
    · cases e
      · left; rfl
      · simp [StdBinaryStreamHandler.emit] at h
    · rcases w with e | u
      · cases e
        · right; left; rfl
        · simp [StdBinaryStreamHandler.emit] at h
      · rcases fl with e | u2
        · cases e
          · right; right; rfl
          · simp [StdBinaryStreamHandler.emit] at h
        · simp [StdBinaryStreamHandler.emit] at h
  · intro f w fl h
    rcases f with e | m
    · cases e
      · simp [StdBinaryStreamHandler.emit] at h
      · left; rfl
    · rcases w with e | u
      · cases e
        · simp [StdBinaryStreamHandler.emit] at h
        · left; rfl
      · rcases fl with e | u2
        · cases e
          · simp [StdBinaryStreamHandler.emit] at h
          · left; rfl
        · right
          exact ⟨rfl, m, rfl, rfl⟩

/-- C7 witness: a concrete write failure (a non-recursion error) is routed to
`handleError` and nothing propagates. -/
theorem c7_witness :
    (StdBinaryStreamHandler.emit (Except.ok "hi")
        (Except.error (EmitErr.otherError 0)) (Except.ok ())).handled =
      true ∨
    ((StdBinaryStreamHandler.emit (Except.ok "hi")
        (Except.error (EmitErr.otherError 0)) (Except.ok ())).flushed =
      true ∧
     ∃ m, (Except.ok "hi" : Except EmitErr String) = Except.ok m ∧
       (StdBinaryStreamHandler.emit (Except.ok "hi")
          (Except.error (EmitErr.otherError 0)) (Except.ok ())).written =
         some (encodeUtf8 m ++ [(10 : UInt8)])) :=
  c7_emit_contract.2.2.2 (Except.ok "hi")
    (Except.error (EmitErr.otherError 0)) (Except.ok ()) (by rfl)

/-- C8: once installed, the warning bridge delegates to the previously saved
handler whenever an explicit destination file was supplied to the warning
call, and otherwise emits a structured event at "warning" severity under the
fixed logger name "py.warnings" with category-name, source-file and
line-number fields; and installation is idempotent — a further
`configure_logging` while a handler is already saved neither saves nor
substitutes the handler again. -/
theorem c8_warning_bridge :
    (∀ (saved : Option WarnHandler) (h : WarnHandler) (msg cat fn : String)
        (ln fileDest : Nat), saved = some h →
        showwarning_bridge saved msg cat fn ln (some fileDest) =
          WarnAction.delegated h fileDest) ∧
    (∀ (saved : Option WarnHandler) (msg cat fn : String) (ln : Nat),
        showwarning_bridge saved msg cat fn ln none =
          WarnAction.emitted
            { loggerName := "py.warnings", level := "warning", message := msg,
              category := cat, filename := fn, lineno := ln }) ∧
    (∀ (hasBEG : Bool) (a : CfgArgs) (s : Sys) (p : Pipeline) (s1 : Sys),
        s.saved ≠ none →
        configure_logging hasBEG a s = Except.ok (p, s1) →
        s1.saved = s.saved ∧ s1.showwarning = s.showwarning) := by
  refine ⟨?_, ?_, ?_⟩
  · intro saved h msg cat fn ln fileDest hs
    simp [showwarning_bridge, hs]
  · intro saved msg cat fn ln
    rfl
  · intro hasBEG a s p s1 hne h
    cases hs : s.saved with
    | none => exact absurd hs hne
    | some w =>
      cases hm : alistGet s.cfgCache a with
      | some q =>
        rw [configure_logging_hit hasBEG a s q hm] at h
        simp only [Except.ok.injEq, Prod.mk.injEq] at h
        obtain ⟨hp, hs1⟩ := h
        subst hs1
        exact ⟨hs, rfl⟩
      | none =>
        by_cases hpo : (a.enable_pretty_log && a.output.isSome) = true
        · unfold configure_logging at h
          rw [hm] at h
          simp [hpo] at h
        · rw [Bool.not_eq_true] at hpo
          cases hlv : alistGet NAME_TO_LEVEL (pyLower a.log_level) with
          | none =>
            unfold configure_logging at h
            rw [hm] at h
            rw [if_neg (by simp [hpo])] at h
            rw [hlv] at h
            simp at h
          | some lvl =>
            have hst :=
              logging_processors_stateFields hasBEG a.enable_pretty_log s
            rw [configure_logging_eval_saved hasBEG a s lvl w hm hpo hlv hs]
              at h
            simp only [Except.ok.injEq, Prod.mk.injEq] at h
            obtain ⟨hp, hs1⟩ := h
            subst hs1
            exact ⟨hst.1.trans hs, hst.2.1⟩

/-- C8 witness: concrete delegation with an explicit file, concrete
structured emission without one, and a concrete fresh `configure_logging`
call that finds a handler already saved and touches neither the saved
reference nor the installed handler. -/
theorem c8_witness :
    showwarning_bridge (some WarnHandler.runtimeDefault) "deprecated"
        "UserWarning" "dag.py" 7 (some 1) =
      WarnAction.delegated WarnHandler.runtimeDefault 1 ∧
    showwarning_bridge (some WarnHandler.runtimeDefault) "deprecated"
        "UserWarning" "dag.py" 7 none =
      WarnAction.emitted
        { loggerName := "py.warnings", level := "warning",
          message := "deprecated", category := "UserWarning",
          filename := "dag.py", lineno := 7 } ∧
    (sysReconfigured.saved = (reset_logging sysConfigured).saved ∧
     sysReconfigured.showwarning =
       (reset_logging sysConfigured).showwarning) :=
  ⟨c8_warning_bridge.1 (some WarnHandler.runtimeDefault)
      WarnHandler.runtimeDefault "deprecated" "UserWarning" "dag.py" 7 1 rfl,
   c8_warning_bridge.2.1 (some WarnHandler.runtimeDefault) "deprecated"
      "UserWarning" "dag.py" 7,
   c8_warning_bridge.2.2 false argsStructured (reset_logging sysConfigured)
      structuredPipeline sysReconfigured (by decide) (by rfl)⟩

/-- C9 counterexample: a single non-group failure of 31 application-code
frames (none from a noise module) processed by the Structured-mode formatter
as the source configures it yields a frame list of length 31 — the claimed
30-frame cap does not hold, because the source passes no `max_frames` to the
Structured-mode `ExceptionDictTransformer` (the 30-frame cap is configured
only for the Pretty-mode `RichTracebackFormatter`). -/
theorem c9_counterexample :
    ¬((formatFramesStructured dict_exc_formatter_args manyAppFrames).length
        ≤ 30) := by
  decide

/-- C9 (amended): in Structured mode the formatter is configured with
local-variable capture disabled and the noise-suppression set
{click, contextlib, httpx, httpcore}, so the resulting frame list contains no
frame originating from a suppressed noise component and no captured locals;
but no 30-frame cap is configured in Structured mode — `max_frames := 30`
exists only in the Pretty-mode formatter configuration — so the frame-list
length equals the number of unsuppressed frames, unbounded by 30. -/
theorem c9_structured_formatter_config :
    (∀ (frames : List RawFrame) (f : OutFrame),
        f ∈ formatFramesStructured dict_exc_formatter_args frames →
        outFrameFromNoise f = false ∧ f.localVars = none) ∧
    dict_exc_formatter_args.show_locals = false ∧
    dict_exc_formatter_args.max_frames = none ∧
    dict_exc_formatter_args.suppress = suppress_modules ∧
    rich_exc_formatter_args.max_frames = 30 ∧
    (∀ frames : List RawFrame,
        (formatFramesStructured dict_exc_formatter_args frames).length =
          (frames.filter
            (fun fr => !(frameSuppressed suppress_modules fr))).length) := by
  refine ⟨?_, rfl, rfl, rfl, rfl, ?_⟩
  · intro frames f hf
    simp only [formatFramesStructured, dict_exc_formatter_args,
      List.mem_map, List.mem_filter] at hf
    obtain ⟨fr, ⟨hmem, hsup⟩, hfe⟩ := hf
    rw [Bool.not_eq_true'] at hsup
    subst hfe
    constructor
    · cases ho : fr.origin with
      | lib m =>
        rw [frameSuppressed, ho] at hsup
        have hc : suppress_modules.contains m = false := hsup
        simp only [outFrameFromNoise, ho]
        exact hc
      | app file => simp [outFrameFromNoise, ho]
    · rfl
  · intro frames
    simp [formatFramesStructured, dict_exc_formatter_args]

/-- C9 witness: a concrete two-frame failure (one `httpx` frame, one
application frame) yields an output whose surviving frame is from
application code and carries no locals. -/
theorem c9_witness :
    outFrameFromNoise
        { origin := FrameOrigin.app "dag.py", lineno := 5, name := "run",
          localVars := none } = false ∧
    ({ origin := FrameOrigin.app "dag.py", lineno := 5, name := "run",
       localVars := none } : OutFrame).localVars = none :=
  c9_structured_formatter_config.1
    [{ origin := FrameOrigin.lib PyModule.httpx, lineno := 1, name := "send",
       localVars := [] },
     { origin := FrameOrigin.app "dag.py", lineno := 5, name := "run",
       localVars := [] }]
    { origin := FrameOrigin.app "dag.py", lineno := 5, name := "run",
      localVars := none }
    (by decide)

/-- C10: `reset_logging` called while the saved prior-handler reference is
still its initial empty value assigns that `None` to `warnings.showwarning`
rather than leaving it unchanged (at import time the handler is the runtime
default, not `None`). -/
theorem c10_reset_before_configure :
    (∀ s : Sys, s.saved = none → (reset_logging s).showwarning = none) ∧
    initSys.showwarning ≠ none := by
  constructor
  · intro s h
    simp [reset_logging, h]
  · simp [initSys]

/-- C10 witness: resetting the freshly imported module replaces the runtime
default warning handler by `None`. -/
theorem c10_witness : (reset_logging initSys).showwarning = none :=
  c10_reset_before_configure.1 initSys rfl


